import Mathlib

/-!
Shallow embedding of the job-orchestration core of the freeconvert backend
(`apps/backend/app`): the Job record and its status machine (`models/job.py`),
the submission endpoint (`api/job.py` `start_job`), the four Celery tool entry
points and the retention sweeper (`workers/tasks.py`), and the service-layer
executors (`services/merge_service.py`, `services/compress_service.py`,
`services/reduce_service.py`).  The S3 wrapper (`core/s3.py`) is embedded as a
key-value store with per-key success flags for uploads and deletes, matching
the wrapper functions that catch ClientError and return booleans/None instead
of raising.  File contents are abstracted to the granularity the orchestration
observes: a parseable PDF with a list of page payloads, a decodable image with
a pixel payload, or bytes that neither library can parse.  Timestamps are
natural numbers counted in hours.
-/

namespace FreeConvert

/-- Status column of the jobs table (`models/job.py` class JobStatus):
PENDING, PROCESSING, COMPLETED, FAILED, stored as strings. -/
inductive JobStatus where
  | pending
  | processing
  | completed
  | failed
deriving DecidableEq, Repr

/-- Abstraction of a stored file at the granularity the orchestration code
observes: a PDF that PyPDF2 can read (with its list of page payloads), an
image that PIL can decode (with a pixel payload), or bytes that neither
parser accepts. -/
inductive FileData where
  | pdf (pages : List Nat)
  | image (px : Nat)
  | corrupt
deriving DecidableEq, Repr

/-- Row of the jobs table (`models/job.py` class Job).  `tool_type` is a
String(50) column holding one of merge, compress, reduce, jpg-to-pdf.
Derived-size columns (`file_count`, `original_size_mb`, `result_size_mb`)
are informational only and omitted. -/
structure Job where
  id : String
  sessionId : String
  toolType : String
  status : JobStatus
  inputFiles : List String
  resultKey : Option String
  compressionLevel : Option String
  errorMessage : Option String
  createdAt : Nat
  completedAt : Option Nat
deriving DecidableEq, Repr

/-- The jobs table: the durable job record store. -/
structure JobStore where
  jobs : List Job
deriving DecidableEq, Repr

/-- SELECT by primary key (`db.query(Job).filter(Job.id == job_id).first()`). -/
def findJob (db : JobStore) (jid : String) : Option Job :=
  db.jobs.find? (fun j => j.id = jid)

/-- Committing a mutated session object: the row with the same id is replaced. -/
def putJob (db : JobStore) (j : Job) : JobStore :=
  { jobs := db.jobs.map (fun x => if x.id = j.id then j else x) }

/-- INSERT of a freshly created Job (`db.add(job); db.commit()`). -/
def addJob (db : JobStore) (j : Job) : JobStore :=
  { jobs := db.jobs ++ [j] }

/-- The S3 bucket contents, as a list of key/object pairs. -/
structure S3State where
  objects : List (String × FileData)
deriving DecidableEq, Repr

/-- Fetch an object by key; `none` models `download_file` returning None on a
ClientError (`core/s3.py` download_file). -/
def S3State.getObj (s : S3State) (k : String) : Option FileData :=
  (s.objects.find? (fun p => p.1 = k)).map Prod.snd

/-- Embedding of `file_exists` (`core/s3.py`): head_object succeeds iff the key is stored. -/
def S3State.fileExists (s : S3State) (k : String) : Bool :=
  (s.getObj k).isSome

/-- put_object: overwrite the object stored under a key. -/
def S3State.setObj (s : S3State) (k : String) (d : FileData) : S3State :=
  { objects := s.objects.filter (fun p => p.1 ≠ k) ++ [(k, d)] }

/-- delete_object: remove the object stored under a key. -/
def S3State.removeObj (s : S3State) (k : String) : S3State :=
  { objects := s.objects.filter (fun p => p.1 ≠ k) }

/-- Environment of one invocation: which S3 puts and deletes the backend will
accept (`upload_file` / `delete_file` return False instead of raising when the
client errors), and the current wall-clock hour (`datetime.utcnow()`). -/
structure Env where
  uploadOk : String → Bool
  deleteOk : String → Bool
  now : Nat

/-- Embedding of `upload_file` (`core/s3.py`): returns success flag; stores the object only
on success. -/
def uploadFile (env : Env) (s : S3State) (d : FileData) (k : String) : Bool × S3State :=
  if env.uploadOk k then (true, s.setObj k d) else (false, s)

/-- Embedding of `delete_file` (`core/s3.py`): returns success flag; removes the object only
on success. -/
def deleteFile (env : Env) (s : S3State) (k : String) : Bool × S3State :=
  if env.deleteOk k then (true, s.removeObj k) else (false, s)

/-- Embedding of `delete_files` (`core/s3.py`): best-effort batch delete of many keys. -/
def deleteFiles (env : Env) (s : S3State) (ks : List String) : S3State :=
  ks.foldl (fun acc k => (deleteFile env acc k).2) s

/-- Embedding of `CompressService._get_compression_settings` (`compress_service.py`):
the quality/optimize pair for each compression level, defaulting to the
medium pair for any other string. -/
def getCompressionSettings (level : String) : Nat × Bool :=
  if level = "low" then (95, true)
  else if level = "medium" then (85, true)
  else if level = "high" then (70, true)
  else (85, true)

/-- Embedding of `CompressService.compress_image` (`compress_service.py`): PIL decodes the
buffer (raising on non-images, which the method converts to ValueError) and
re-encodes it at the quality chosen by `_get_compression_settings`; the
re-encoded bytes are abstracted to an image with the same pixel payload. -/
def compressImage (d : FileData) (level : String) : Except String FileData :=
  match d with
  | .image px =>
      let _settings := getCompressionSettings level
      .ok (.image px)
  | _ => .error "Failed to compress image: cannot identify image file"

/-- Embedding of `ReduceService.reduce_pdf` (`reduce_service.py`): PyPDF2 parses the buffer
(parse failure becomes ValueError via the outer except); an empty page list
returns the input unchanged; otherwise every page is copied into the writer
regardless of level, so the page list is preserved. -/
def reducePdf (d : FileData) (level : String) : Except String FileData :=
  match d with
  | .pdf pages =>
      if pages.isEmpty then .ok (.pdf pages)
      else
        let _level := level
        .ok (.pdf pages)
  | _ => .error "Failed to reduce PDF: could not read malformed PDF"

/-- Reading loop of `MergeService.merge_pdfs` (`merge_service.py` lines 62-81):
each buffer is parsed (parse failure raises ValueError naming the index);
parsed PDFs with zero pages are skipped; the rest are collected in order. -/
def collectPdfs (i : Nat) (ds : List FileData) : Except String (List (List Nat)) :=
  match ds with
  | [] => .ok []
  | d :: rest =>
      match d with
      | .pdf pages =>
          match collectPdfs (i + 1) rest with
          | .error e => .error e
          | .ok acc => .ok (if pages.isEmpty then acc else pages :: acc)
      | _ => .error ("Invalid PDF file " ++ toString i ++ ": could not read PDF")

/-- The AttributeError message produced at `merge_service.py` line 87: the
merge path evaluates `self.merger.__name__`, but `self.merger` is a PdfMerger
instance, and instances carry no such attribute. -/
def mergerNameAttributeError : String :=
  "PdfMerger object has no attribute __name__"

/-- Embedding of `MergeService.merge_pdfs` (`merge_service.py`): rejects an empty input
list, parses and collects the inputs, rejects the case of no valid PDFs, and
then evaluates `self.merger.__name__` on a PdfMerger instance, which raises
AttributeError; the outer except converts every exception raised inside the
try into ValueError with the prefix shown, so the function can never return
merged bytes. -/
def mergePdfs (ds : List FileData) : Except String (List Nat) :=
  if ds.isEmpty then .error "No PDF files provided for merging"
  else
    match collectPdfs 0 ds with
    | .error e => .error ("Failed to merge PDFs: " ++ e)
    | .ok valid =>
        if valid.isEmpty then
          .error "Failed to merge PDFs: No valid PDF files could be processed"
        else
          .error ("Failed to merge PDFs: " ++ mergerNameAttributeError)

/-- PIL `Image.open` inside the tasks: succeeds exactly on decodable images,
yielding the pixel payload. -/
def decodeImage (d : FileData) : Except String Nat :=
  match d with
  | .image px => .ok px
  | _ => .error "cannot identify image file"

/-- Number of pages of a stored object, for stating page-count properties of
result documents (zero for anything that is not a parseable PDF). -/
def pdfNumPages (d : FileData) : Nat :=
  match d with
  | .pdf pages => pages.length
  | _ => 0

/-- The world state a task invocation reads and writes: the jobs table and the
S3 bucket. -/
structure World where
  db : JobStore
  s3 : S3State
deriving DecidableEq, Repr

/-- The dict a Celery task returns to its caller: a status tag, an optional
result key, and a message. -/
structure TaskResult where
  status : String
  resultKey : Option String
  message : String
deriving DecidableEq, Repr

/-- Outcome of the body of a task try-block: either the success return (with
the result key and message of the success dict), or an exception carrying the
message, the world at the raise point (commits already performed persist), and
the session Job object as last mutated (None when the job row was never
loaded). -/
inductive BodyResult where
  | success (w : World) (resultKey : String) (message : String)
  | raised (w : World) (sessionJob : Option Job) (msg : String)
deriving Repr

/-- Embedding of `_download_files_to_temp` (`tasks.py`): downloads each key in order into a
scratch file; the first key whose download returns None raises ValueError. -/
def downloadAll (s3 : S3State) (ks : List String) : Except String (List FileData) :=
  match ks with
  | [] => .ok []
  | k :: rest =>
      match s3.getObj k with
      | none => .error ("Failed to download file " ++ k)
      | some d =>
          match downloadAll s3 rest with
          | .error e => .error e
          | .ok ds => .ok (d :: ds)

/-- Shared except-handler of the four task entry points (`tasks.py`): set the
session Job to FAILED with the error message and a completion timestamp and
commit; when the session Job is None the attribute writes raise and the inner
bare except rolls back, leaving the store untouched.  The task then returns
the structured error dict.  Note that the handler never clears `result_key`. -/
def failJob (env : Env) (w : World) (sessionJob : Option Job) (msg : String) :
    World × TaskResult :=
  match sessionJob with
  | some j =>
      let jf := { j with
        status := JobStatus.failed
        errorMessage := some msg
        completedAt := some env.now }
      ({ w with db := putJob w.db jf },
        { status := "error", resultKey := none, message := msg })
  | none =>
      (w, { status := "error", resultKey := none, message := msg })

/-- First committed step of every task entry point (`tasks.py` lines 134-139
and the analogous lines of the other tasks): load the Job row, set status to
PROCESSING (and, for compress/reduce, the compression level), commit.  Only
`status` (and the level) is written; `result_key`, `error_message` and
`completed_at` keep whatever values the row already has. -/
def markProcessing (db : JobStore) (jid : String) (level : Option String) :
    Option (Job × JobStore) :=
  match findJob db jid with
  | none => none
  | some job =>
      let job1 := { job with
        status := JobStatus.processing
        compressionLevel := match level with
          | some l => some l
          | none => job.compressionLevel }
      some (job1, putJob db job1)

/-- Body of `merge_pdf_task` (`tasks.py` lines 132-172): mark processing,
download the inputs, merge, upload to `results/JOBID/merged.pdf`, and on
upload success write the COMPLETED row (result key set, error cleared,
completion time stamped) and best-effort delete the input blobs. -/
def mergeTaskBody (env : Env) (jid : String) (fileKeys : List String) (w : World) :
    BodyResult :=
  match markProcessing w.db jid none with
  | none => .raised w none ("Job " ++ jid ++ " not found")
  | some (job1, db1) =>
      let w1 : World := { w with db := db1 }
      match downloadAll w1.s3 fileKeys with
      | .error e => .raised w1 (some job1) e
      | .ok files =>
          match mergePdfs files with
          | .error e => .raised w1 (some job1) e
          | .ok merged =>
              let resultKey := "results/" ++ jid ++ "/merged.pdf"
              let (success, s3a) := uploadFile env w1.s3 (.pdf merged) resultKey
              if success then
                let job2 := { job1 with
                  status := JobStatus.completed
                  resultKey := some resultKey
                  completedAt := some env.now
                  errorMessage := none }
                let db2 := putJob db1 job2
                let s3b := deleteFiles env s3a fileKeys
                .success ⟨db2, s3b⟩ resultKey "PDF merge completed successfully"
              else
                .raised { w1 with s3 := s3a } (some job1) "Failed to upload merged file"

/-- Embedding of `merge_pdf_task` (`tasks.py`): the try-body wrapped in the shared
except-handler; every exception raised inside the body is converted into a
FAILED status write and a structured error dict. -/
def mergePdfTask (env : Env) (jid : String) (fileKeys : List String) (w : World) :
    World × TaskResult :=
  match mergeTaskBody env jid fileKeys w with
  | .success w1 rk msg => (w1, { status := "success", resultKey := some rk, message := msg })
  | .raised w1 sj msg => failJob env w1 sj msg

/-- Per-file loop of `compress_image_task` (`tasks.py` lines 230-239): compress
each downloaded buffer and upload it under `results/JOBID/compressed_I.jpg`.
The boolean returned by `upload_file` is discarded, so a rejected put leaves
the bucket unchanged without raising. -/
def compressUploadLoop (env : Env) (jid : String) (level : String) (s3 : S3State)
    (i : Nat) (files : List FileData) : Except String S3State :=
  match files with
  | [] => .ok s3
  | d :: rest =>
      match compressImage d level with
      | .error e => .error e
      | .ok c =>
          let key := "results/" ++ jid ++ "/compressed_" ++ toString i ++ ".jpg"
          let (_success, s3a) := uploadFile env s3 c key
          compressUploadLoop env jid level s3a (i + 1) rest

/-- Body of `compress_image_task` (`tasks.py` lines 196-258): mark processing
(also recording the compression level), download the inputs, compress and
upload each, then unconditionally write the COMPLETED row pointing at
`results/JOBID/compressed_0.jpg` and best-effort delete the input blobs. -/
def compressTaskBody (env : Env) (jid : String) (fileKeys : List String)
    (level : String) (w : World) : BodyResult :=
  match markProcessing w.db jid (some level) with
  | none => .raised w none ("Job " ++ jid ++ " not found")
  | some (job1, db1) =>
      let w1 : World := { w with db := db1 }
      match downloadAll w1.s3 fileKeys with
      | .error e => .raised w1 (some job1) e
      | .ok files =>
          match compressUploadLoop env jid level w1.s3 0 files with
          | .error e => .raised w1 (some job1) e
          | .ok s3a =>
              let resultKey := "results/" ++ jid ++ "/compressed_0.jpg"
              let job2 := { job1 with
                status := JobStatus.completed
                resultKey := some resultKey
                completedAt := some env.now
                errorMessage := none }
              let db2 := putJob db1 job2
              let s3b := deleteFiles env s3a fileKeys
              .success ⟨db2, s3b⟩ resultKey
                ("Image compression completed with " ++ level ++ " quality")

/-- Embedding of `compress_image_task` (`tasks.py`): try-body wrapped in the shared
except-handler. -/
def compressImageTask (env : Env) (jid : String) (fileKeys : List String)
    (level : String) (w : World) : World × TaskResult :=
  match compressTaskBody env jid fileKeys level w with
  | .success w1 rk msg => (w1, { status := "success", resultKey := some rk, message := msg })
  | .raised w1 sj msg => failJob env w1 sj msg

/-- Body of `reduce_pdf_task` (`tasks.py` lines 282-346): mark processing
(recording the level), download the single input, reduce it, upload to
`results/JOBID/reduced.pdf`, and on upload success write the COMPLETED row and
best-effort delete the input blob. -/
def reduceTaskBody (env : Env) (jid : String) (fileKey : String) (level : String)
    (w : World) : BodyResult :=
  match markProcessing w.db jid (some level) with
  | none => .raised w none ("Job " ++ jid ++ " not found")
  | some (job1, db1) =>
      let w1 : World := { w with db := db1 }
      match downloadAll w1.s3 [fileKey] with
      | .error e => .raised w1 (some job1) e
      | .ok files =>
          match files.head? with
          | none => .raised w1 (some job1) ("Failed to download file " ++ fileKey)
          | some d =>
              match reducePdf d level with
              | .error e => .raised w1 (some job1) e
              | .ok reduced =>
                  let resultKey := "results/" ++ jid ++ "/reduced.pdf"
                  let (success, s3a) := uploadFile env w1.s3 reduced resultKey
                  if success then
                    let job2 := { job1 with
                      status := JobStatus.completed
                      resultKey := some resultKey
                      completedAt := some env.now
                      errorMessage := none }
                    let db2 := putJob db1 job2
                    let s3b := (deleteFile env s3a fileKey).2
                    .success ⟨db2, s3b⟩ resultKey
                      ("PDF reduction completed with " ++ level ++ " compression")
                  else
                    .raised { w1 with s3 := s3a } (some job1) "Failed to upload reduced file"

/-- Embedding of `reduce_pdf_task` (`tasks.py`): try-body wrapped in the shared
except-handler. -/
def reducePdfTask (env : Env) (jid : String) (fileKey : String) (level : String)
    (w : World) : World × TaskResult :=
  match reduceTaskBody env jid fileKey level w with
  | .success w1 rk msg => (w1, { status := "success", resultKey := some rk, message := msg })
  | .raised w1 sj msg => failJob env w1 sj msg

/-- Image-decoding loop of `jpg_to_pdf_task` (`tasks.py` lines 405-415): open
each downloaded buffer with PIL in order (the first undecodable buffer
raises); RGBA-to-RGB conversion does not change the pixel payload in this
abstraction. -/
def decodeImages (files : List FileData) : Except String (List Nat) :=
  match files with
  | [] => .ok []
  | d :: rest =>
      match decodeImage d with
      | .error e => .error e
      | .ok px =>
          match decodeImages rest with
          | .error e => .error e
          | .ok pxs => .ok (px :: pxs)

/-- The PIL save call of `jpg_to_pdf_task` (`tasks.py` line 421):
`first_image.save(pdf_data, format=PDF)` without `save_all` or
`append_images`, so the produced document contains exactly one page, rendering
the first image. -/
def pilSaveFirstImageAsPdf (images : List Nat) (firstImage : Nat) : FileData :=
  let _others := images
  .pdf [firstImage]

/-- Body of `jpg_to_pdf_task` (`tasks.py` lines 371-447): mark processing,
download the inputs, decode every image, save the first image as a PDF, upload
to `results/JOBID/converted.pdf`, and on upload success write the COMPLETED
row and best-effort delete the input blobs. -/
def jpgToPdfTaskBody (env : Env) (jid : String) (fileKeys : List String) (w : World) :
    BodyResult :=
  match markProcessing w.db jid none with
  | none => .raised w none ("Job " ++ jid ++ " not found")
  | some (job1, db1) =>
      let w1 : World := { w with db := db1 }
      match downloadAll w1.s3 fileKeys with
      | .error e => .raised w1 (some job1) e
      | .ok files =>
          match decodeImages files with
          | .error e => .raised w1 (some job1) e
          | .ok images =>
              match images.head? with
              | none => .raised w1 (some job1) "No valid images found for conversion"
              | some firstImage =>
                  let pdfBytes := pilSaveFirstImageAsPdf images firstImage
                  let resultKey := "results/" ++ jid ++ "/converted.pdf"
                  let (success, s3a) := uploadFile env w1.s3 pdfBytes resultKey
                  if success then
                    let job2 := { job1 with
                      status := JobStatus.completed
                      resultKey := some resultKey
                      completedAt := some env.now
                      errorMessage := none }
                    let db2 := putJob db1 job2
                    let s3b := deleteFiles env s3a fileKeys
                    .success ⟨db2, s3b⟩ resultKey "JPG to PDF conversion completed successfully"
                  else
                    .raised { w1 with s3 := s3a } (some job1) "Failed to upload converted PDF"

/-- Embedding of `jpg_to_pdf_task` (`tasks.py`): try-body wrapped in the shared
except-handler. -/
def jpgToPdfTask (env : Env) (jid : String) (fileKeys : List String) (w : World) :
    World × TaskResult :=
  match jpgToPdfTaskBody env jid fileKeys w with
  | .success w1 rk msg => (w1, { status := "success", resultKey := some rk, message := msg })
  | .raised w1 sj msg => failJob env w1 sj msg

/-- Embedding of `StartJobRequest` (`api/job.py` lines 26-33): tool type, the input file
keys, and the compression level (default medium). -/
structure StartJobRequest where
  toolType : String
  fileKeys : List String
  compressionLevel : String
deriving DecidableEq, Repr

/-- Pydantic field validation of `StartJobRequest`: the tool-type pattern
admits merge, compress, reduce, jpg-to-pdf; `file_keys` carries
`min_items=1, max_items=20`; the level pattern admits low, medium, high.
A request failing this never reaches `start_job`. -/
def requestValid (r : StartJobRequest) : Bool :=
  (r.toolType = "merge" || r.toolType = "compress" ||
     r.toolType = "reduce" || r.toolType = "jpg-to-pdf") &&
  decide (1 ≤ r.fileKeys.length) && decide (r.fileKeys.length ≤ 20) &&
  (r.compressionLevel = "low" || r.compressionLevel = "medium" ||
     r.compressionLevel = "high")

/-- A task enqueue performed by `start_job` via `celery_app.send_task`. -/
structure TaskCall where
  taskName : String
  jobId : String
  argKeys : List String
  argLevel : Option String
deriving DecidableEq, Repr

/-- The HTTP outcome of `start_job`: the success response or an HTTPException
with status code and detail. -/
inductive StartOutcome where
  | ok (jobId : String)
  | httpError (code : Nat) (detail : String)
deriving DecidableEq, Repr

/-- Embedding of `start_job` (`api/job.py` lines 63-141): check every file key exists in S3
(first missing key raises 404 before any write); INSERT and COMMIT the new
PENDING Job row; then dispatch on the tool string, where the reduce branch
checks the single-input cardinality only after the commit, so its 400 error
leaves the already-committed row in the table (the surrounding handler
re-raises HTTPException without undoing the commit). -/
def startJob (env : Env) (s3 : S3State) (db : JobStore) (req : StartJobRequest)
    (jid sess : String) : JobStore × List TaskCall × StartOutcome :=
  match req.fileKeys.find? (fun k => ¬ s3.fileExists k) with
  | some k => (db, [], .httpError 404 ("File not found: " ++ k))
  | none =>
      let job : Job := {
        id := jid
        sessionId := sess
        toolType := req.toolType
        status := JobStatus.pending
        inputFiles := req.fileKeys
        resultKey := none
        compressionLevel := some req.compressionLevel
        errorMessage := none
        createdAt := env.now
        completedAt := none }
      let db1 := addJob db job
      if req.toolType = "merge" then
        (db1, [⟨"app.workers.tasks.merge_pdf_task", jid, req.fileKeys, none⟩], .ok jid)
      else if req.toolType = "compress" then
        (db1, [⟨"app.workers.tasks.compress_image_task", jid, req.fileKeys,
          some req.compressionLevel⟩], .ok jid)
      else if req.toolType = "reduce" then
        if req.fileKeys.length ≠ 1 then
          (db1, [], .httpError 400 "Reduce tool requires exactly one file")
        else
          (db1, [⟨"app.workers.tasks.reduce_pdf_task", jid, req.fileKeys,
            some req.compressionLevel⟩], .ok jid)
      else if req.toolType = "jpg-to-pdf" then
        (db1, [⟨"app.workers.tasks.jpg_to_pdf_task", jid, req.fileKeys, none⟩], .ok jid)
      else
        (db1, [], .ok jid)

/-- Selection predicate of `cleanup_old_jobs` (`tasks.py` lines 484-488):
`Job.completed_at < cutoff` in SQL is unknown (hence false) when the column is
NULL, so only rows with a set completion time strictly older than the cutoff
are selected. -/
def jobIsOld (now : Nat) (j : Job) : Bool :=
  match j.completedAt with
  | some t => decide (t < now - 24)
  | none => false

/-- Per-job blob sweep of `cleanup_old_jobs` (`tasks.py` lines 491-495): when
the row has a result key, attempt to delete that blob, counting it only when
the delete succeeded. -/
def sweepJobBlob (env : Env) (acc : S3State × Nat) (j : Job) : S3State × Nat :=
  match j.resultKey with
  | some k =>
      let (ok, s3a) := deleteFile env acc.1 k
      (s3a, if ok then acc.2 + 1 else acc.2)
  | none => acc

/-- Embedding of `cleanup_old_jobs` (`tasks.py` lines 471-514): select every job whose
completion time is strictly older than 24 hours before now, best-effort delete
each selected result blob, delete every selected job row, and report the
counts. -/
def cleanupOldJobs (env : Env) (w : World) : World × Nat × Nat :=
  let oldJobs := w.db.jobs.filter (jobIsOld env.now)
  let (s3a, cleanedFiles) := oldJobs.foldl (sweepJobBlob env) (w.s3, 0)
  let db1 : JobStore := { jobs := w.db.jobs.filter (fun j => ¬ jobIsOld env.now j) }
  (⟨db1, s3a⟩, oldJobs.length, cleanedFiles)

/-! ### Helper lemmas -/

/-- The shared except-handler always returns the structured error dict. -/
theorem failJob_status (env : Env) (w : World) (sj : Option Job) (msg : String) :
    (failJob env w sj msg).2.status = "error" := by
  cases sj <;> rfl

/-- Committing a row whose id is the one being looked up makes the lookup
return exactly that row. -/
theorem find?_putJob (l : List Job) (jid : String) (j j0 : Job)
    (h : l.find? (fun x => x.id = jid) = some j0) (hid : j.id = jid) :
    (l.map (fun x => if x.id = j.id then j else x)).find? (fun x => x.id = jid) = some j := by
  induction l with
  | nil => simp at h
  | cons a t ih =>
      by_cases ha : a.id = jid
      · have hrepl : (if a.id = j.id then j else a) = j := by
          rw [hid]
          simp [ha]
        simp only [List.map_cons, hrepl]
        exact List.find?_cons_of_pos _ (by simp [hid])
      · have htail : t.find? (fun x => x.id = jid) = some j0 := by
          rw [List.find?_cons_of_neg _ (by simp [ha])] at h
          exact h
        have hrepl : (if a.id = j.id then j else a) = a := by
          rw [hid]
          simp [ha]
        simp only [List.map_cons, hrepl]
        rw [List.find?_cons_of_neg _ (by simp [ha])]
        exact ih htail

/-- Lookup level version of `find?_putJob`. -/
theorem findJob_putJob (db : JobStore) (jid : String) (j j0 : Job)
    (h : findJob db jid = some j0) (hid : j.id = jid) :
    findJob (putJob db j) jid = some j :=
  find?_putJob db.jobs jid j j0 h hid

/-- Searching for a key inside the sublist from which that key was filtered
out finds nothing. -/
theorem find?_key_filter_ne (l : List (String × FileData)) (k : String) :
    (l.filter (fun p => p.1 ≠ k)).find? (fun p => p.1 = k) = none := by
  rw [List.find?_eq_none]
  intro x hx
  rw [List.mem_filter] at hx
  simpa using hx.2

/-- A put stores the object under its key. -/
theorem getObj_setObj_self (s : S3State) (k : String) (d : FileData) :
    (s.setObj k d).getObj k = some d := by
  unfold S3State.setObj S3State.getObj
  simp only [List.find?_append, find?_key_filter_ne]
  rw [List.find?_cons_of_pos _ (by simp)]
  rfl

/-- Removing one key leaves lookups of other keys unchanged. -/
theorem getObj_removeObj_ne (s : S3State) (k k2 : String) (h : k ≠ k2) :
    (s.removeObj k2).getObj k = s.getObj k := by
  unfold S3State.removeObj S3State.getObj
  have hpred : (fun a : String × FileData =>
      decide ((decide (a.1 ≠ k2) = true) ∧ (decide (a.1 = k) = true))) =
      (fun p : String × FileData => decide (p.1 = k)) := by
    funext a
    by_cases ha : a.1 = k
    · have : a.1 ≠ k2 := by
        rw [ha]
        exact h
      simp [ha, this, h]
    · simp [ha]
  simp only [List.find?_filter, hpred]

/-- Removing a key makes its lookup return none. -/
theorem getObj_removeObj_self (s : S3State) (k : String) :
    (s.removeObj k).getObj k = none := by
  unfold S3State.removeObj S3State.getObj
  rw [Option.map_eq_none', find?_key_filter_ne]

/-- A key that is absent stays absent after removing any key. -/
theorem getObj_removeObj_absent (s : S3State) (k k2 : String)
    (h : s.getObj k = none) : (s.removeObj k2).getObj k = none := by
  by_cases hk : k = k2
  · subst hk
    exact getObj_removeObj_self s k
  · rw [getObj_removeObj_ne s k k2 hk]
    exact h

/-- Best-effort batch deletion of keys not containing `k` leaves the lookup of
`k` unchanged. -/
theorem getObj_deleteFiles_not_mem (env : Env) (s : S3State) (ks : List String)
    (k : String) (h : k ∉ ks) : (deleteFiles env s ks).getObj k = s.getObj k := by
  induction ks generalizing s with
  | nil => rfl
  | cons a t ih =>
      have hka : k ≠ a := by
        intro he
        exact h (by simp [he])
      have hkt : k ∉ t := by
        intro he
        exact h (by simp [he])
      show ((deleteFiles env ((deleteFile env s a).2) t)).getObj k = s.getObj k
      rw [ih _ hkt]
      unfold deleteFile
      by_cases hd : env.deleteOk a
      · simp only [hd, if_pos]
        exact getObj_removeObj_ne s k a hka
      · simp [hd]

/-- When every key of the list is stored, the download loop returns exactly
the stored objects, in order. -/
theorem downloadAll_ok (s3 : S3State) (ks : List String) (f : String → FileData)
    (h : ∀ k ∈ ks, s3.getObj k = some (f k)) :
    downloadAll s3 ks = .ok (ks.map f) := by
  induction ks with
  | nil => rfl
  | cons a t ih =>
      have ha : s3.getObj a = some (f a) := h a (by simp)
      have ht : downloadAll s3 t = .ok (t.map f) := ih (fun k hk => h k (by simp [hk]))
      unfold downloadAll
      rw [ha, ht]
      rfl

/-- Decoding a list of image objects yields their pixel payloads, in order. -/
theorem decodeImages_images (pxs : List Nat) :
    decodeImages (pxs.map FileData.image) = .ok pxs := by
  induction pxs with
  | nil => rfl
  | cons a t ih =>
      unfold decodeImages
      simp only [List.map_cons]
      rw [show decodeImage (FileData.image a) = .ok a from rfl, ih]

/-- The merge executor can never return merged bytes: the attribute access
`self.merger.__name__` on the PdfMerger instance raises before any merging
happens, and the wrapping except re-raises as ValueError. -/
theorem mergePdfs_no_success (ds : List FileData) (r : List Nat) :
    mergePdfs ds ≠ Except.ok r := by
  unfold mergePdfs
  split
  · intro h
    cases h
  · split
    · intro h
      cases h
    · split
      · intro h
        cases h
      · intro h
        cases h

/-! ### Claim theorems -/

/-- C9: the quality-level mapping used by image compression is exactly
low to quality 95 with optimization enabled, medium to quality 85 with
optimization enabled, and high to quality 70 with optimization enabled. -/
theorem c9_compression_settings_mapping :
    getCompressionSettings "low" = (95, true) ∧
    getCompressionSettings "medium" = (85, true) ∧
    getCompressionSettings "high" = (70, true) :=
  ⟨rfl, rfl, rfl⟩

/-- C5: the claim expects merging three valid single-page PDFs to succeed
with a three-page result, but the merge executor fails on every input: for
three valid single-page documents it raises the converted AttributeError, for
an empty list it raises the empty-input ValueError (and the API request
validation already rejects an empty `file_keys` list), and no input list at
all can produce a success value. -/
theorem c5_merge_never_succeeds :
    mergePdfs [FileData.pdf [1], FileData.pdf [2], FileData.pdf [3]] =
      .error ("Failed to merge PDFs: " ++ mergerNameAttributeError) ∧
    mergePdfs [] = .error "No PDF files provided for merging" ∧
    requestValid ⟨"merge", [], "medium"⟩ = false ∧
    (∀ ds r, mergePdfs ds ≠ Except.ok r) := by
  refine ⟨rfl, rfl, by decide, mergePdfs_no_success⟩

/-- C6: a compress job whose result upload is rejected by the blob store (the
upload environment refuses every put) is nevertheless recorded as COMPLETED
with `result_key` pointing at `results/J/compressed_0.jpg`, a key under which
nothing is stored — the task discards the boolean returned by `upload_file`,
so the store failure does not transition the job to failed. -/
theorem c6_compress_completes_despite_upload_failure :
    ((findJob (compressImageTask ⟨fun _ => false, fun _ => true, 100⟩ "J" ["k"] "high"
          ⟨⟨[⟨"J", "S", "compress", .pending, ["k"], none, some "medium", none, 0, none⟩]⟩,
            ⟨[("k", .image 7)]⟩⟩).1.db "J").map
        (fun j => (j.status, j.resultKey, j.errorMessage))) =
      some (JobStatus.completed, some "results/J/compressed_0.jpg", none) ∧
    (compressImageTask ⟨fun _ => false, fun _ => true, 100⟩ "J" ["k"] "high"
        ⟨⟨[⟨"J", "S", "compress", .pending, ["k"], none, some "medium", none, 0, none⟩]⟩,
          ⟨[("k", .image 7)]⟩⟩).1.s3.getObj "results/J/compressed_0.jpg" = none := by
  constructor
  · rfl
  · rfl

/-- C7: every invocation of a tool entry point returns the structured result
dict — either the success dict or the error dict produced by the shared
except-handler; in this embedding each entry point is a total function into
`World × TaskResult` and every raise site of the try-body is routed through
`failJob`, mirroring the blanket except of each task. -/
theorem c7_tasks_return_structured_results (env : Env) (jid fileKey level : String)
    (fileKeys : List String) (w : World) :
    ((mergePdfTask env jid fileKeys w).2.status = "success" ∨
      (mergePdfTask env jid fileKeys w).2.status = "error") ∧
    ((reducePdfTask env jid fileKey level w).2.status = "success" ∨
      (reducePdfTask env jid fileKey level w).2.status = "error") ∧
    ((compressImageTask env jid fileKeys level w).2.status = "success" ∨
      (compressImageTask env jid fileKeys level w).2.status = "error") ∧
    ((jpgToPdfTask env jid fileKeys w).2.status = "success" ∨
      (jpgToPdfTask env jid fileKeys w).2.status = "error") := by
  refine ⟨?_, ?_, ?_, ?_⟩
  · unfold mergePdfTask
    rcases mergeTaskBody env jid fileKeys w with _ | ⟨w1, sj, msg⟩
    · left
      rfl
    · right
      exact failJob_status env w1 sj msg
  · unfold reducePdfTask
    rcases reduceTaskBody env jid fileKey level w with _ | ⟨w1, sj, msg⟩
    · left
      rfl
    · right
      exact failJob_status env w1 sj msg
  · unfold compressImageTask
    rcases compressTaskBody env jid fileKeys level w with _ | ⟨w1, sj, msg⟩
    · left
      rfl
    · right
      exact failJob_status env w1 sj msg
  · unfold jpgToPdfTask
    rcases jpgToPdfTaskBody env jid fileKeys w with _ | ⟨w1, sj, msg⟩
    · left
      rfl
    · right
      exact failJob_status env w1 sj msg

/-- C1 counterexample: a reduce submission with two input refs, both blobs
present, returns the 400 cardinality error — but the job record store is NOT
unchanged: the PENDING row was committed before the cardinality check and
survives the failed call, refuting the claim that no Job record is created. -/
theorem c1_counterexample :
    (startJob ⟨fun _ => true, fun _ => true, 100⟩
        ⟨[("a", .pdf [1]), ("b", .pdf [2])]⟩ ⟨[]⟩
        ⟨"reduce", ["a", "b"], "medium"⟩ "J" "S").2.2 =
      .httpError 400 "Reduce tool requires exactly one file" ∧
    (startJob ⟨fun _ => true, fun _ => true, 100⟩
        ⟨[("a", .pdf [1]), ("b", .pdf [2])]⟩ ⟨[]⟩
        ⟨"reduce", ["a", "b"], "medium"⟩ "J" "S").1 ≠ (⟨[]⟩ : JobStore) := by
  constructor
  · rfl
  · decide

/-- C2 counterexample: a jpg-to-pdf job completes (result key set, inputs
deleted), and a re-delivered invocation of the same entry point with the same
arguments fails to download the now-deleted input and writes FAILED while
leaving the stale `result_key` in place — a terminal job with BOTH
`result_ref` and `error_detail` set, refuting the invariant. -/
theorem c2_counterexample :
    ((findJob (jpgToPdfTask ⟨fun _ => true, fun _ => true, 100⟩ "J" ["k"]
          (jpgToPdfTask ⟨fun _ => true, fun _ => true, 100⟩ "J" ["k"]
            ⟨⟨[⟨"J", "S", "jpg-to-pdf", .pending, ["k"], none, some "medium", none, 0, none⟩]⟩,
              ⟨[("k", .image 7)]⟩⟩).1).1.db "J").map
        (fun j => (j.status, j.resultKey, j.errorMessage))) =
      some (JobStatus.failed, some "results/J/converted.pdf",
        some "Failed to download file k") := by
  rfl

/-- C3 counterexample: a reduce job completes, its input blob is deleted by
the completion path, and a re-delivered invocation with the same job id and
arguments moves the status away from completed — the job ends FAILED, not
COMPLETED, refuting the claim that re-delivery leaves status at completed. -/
theorem c3_counterexample :
    ((findJob (reducePdfTask ⟨fun _ => true, fun _ => true, 100⟩ "J" "p" "medium"
          (reducePdfTask ⟨fun _ => true, fun _ => true, 100⟩ "J" "p" "medium"
            ⟨⟨[⟨"J", "S", "reduce", .pending, ["p"], none, some "medium", none, 0, none⟩]⟩,
              ⟨[("p", .pdf [1, 2])]⟩⟩).1).1.db "J").map Job.status) =
      some JobStatus.failed ∧
    some JobStatus.failed ≠ some JobStatus.completed := by
  constructor
  · rfl
  · decide

/-- C4 counterexample: a jpg-to-pdf job with two input images stores, under
`results/J/converted.pdf`, a document with exactly one page (the first image)
— not one page per input image as claimed, since the PIL save call writes
only the first image. -/
theorem c4_counterexample :
    (jpgToPdfTask ⟨fun _ => true, fun _ => true, 100⟩ "J" ["i0", "i1"]
        ⟨⟨[⟨"J", "S", "jpg-to-pdf", .pending, ["i0", "i1"], none, some "medium", none, 0, none⟩]⟩,
          ⟨[("i0", .image 3), ("i1", .image 4)]⟩⟩).1.s3.getObj "results/J/converted.pdf" =
      some (FileData.pdf [3]) ∧
    pdfNumPages (FileData.pdf [3]) = 1 ∧
    (1 : Nat) ≠ ["i0", "i1"].length := by
  refine ⟨rfl, rfl, by decide⟩

/-- C10 counterexample: re-delivery of a completed job commits the PROCESSING
status while keeping the stale `completed_at` (the first committed step of the
entry point), and a sweep run then deletes this PROCESSING job — the sweeper
does not preserve all processing jobs, because its selection looks only at
`completed_at`. -/
theorem c10_counterexample :
    ((markProcessing
          ⟨[⟨"D", "S", "jpg-to-pdf", .completed, ["k"], some "results/D/converted.pdf",
            none, none, 0, some 0⟩]⟩ "D" none).map
        (fun p => p.1.status)) = some JobStatus.processing ∧
    ((markProcessing
          ⟨[⟨"D", "S", "jpg-to-pdf", .completed, ["k"], some "results/D/converted.pdf",
            none, none, 0, some 0⟩]⟩ "D" none).map
        (fun p => (cleanupOldJobs ⟨fun _ => true, fun _ => true, 25⟩ ⟨p.2, ⟨[]⟩⟩).1.db.jobs)) =
      some [] := by
  constructor
  · rfl
  · rfl

/-- C10 amended: the retention sweeper never deletes a job whose
`completed_at` is unset — its selection predicate is false on a NULL
`completed_at`, so such a job (in particular any pending or processing job
that never reached a terminal state) survives every sweep run regardless of
its age; processing jobs are only at risk when they carry a stale non-null
`completed_at` from an earlier terminal transition. -/
theorem c10_amended (env : Env) (w : World) (j : Job)
    (hin : j ∈ w.db.jobs) (hnone : j.completedAt = none) :
    j ∈ (cleanupOldJobs env w).1.db.jobs := by
  unfold cleanupOldJobs
  simp only [List.mem_filter]
  refine ⟨hin, ?_⟩
  simp [jobIsOld, hnone]

/-- C10 amended witness: a concrete pending job with no completion time in a
store swept at hour 100 is still present afterwards. -/
theorem c10_amended_witness :
    (⟨"C", "S", "merge", .pending, ["z"], none, none, none, 0, none⟩ : Job) ∈
      (cleanupOldJobs ⟨fun _ => true, fun _ => true, 100⟩
        ⟨⟨[⟨"C", "S", "merge", .pending, ["z"], none, none, none, 0, none⟩]⟩, ⟨[]⟩⟩).1.db.jobs :=
  c10_amended ⟨fun _ => true, fun _ => true, 100⟩
    ⟨⟨[⟨"C", "S", "merge", .pending, ["z"], none, none, none, 0, none⟩]⟩, ⟨[]⟩⟩
    ⟨"C", "S", "merge", .pending, ["z"], none, none, none, 0, none⟩
    (by simp) rfl

/-- A key absent from the bucket stays absent through one blob-sweep step. -/
theorem sweepJobBlob_absent (env : Env) (acc : S3State × Nat) (j : Job) (k : String)
    (h : acc.1.getObj k = none) : ((sweepJobBlob env acc j).1).getObj k = none := by
  unfold sweepJobBlob
  rcases hrk : j.resultKey with _ | k2
  · exact h
  · unfold deleteFile
    by_cases hd : env.deleteOk k2
    · simp only [hd, if_pos]
      exact getObj_removeObj_absent _ _ _ h
    · simp only [hd]
      simpa using h

/-- A key absent from the bucket stays absent through a whole blob sweep. -/
theorem foldl_sweep_absent (env : Env) (js : List Job) (acc : S3State × Nat) (k : String)
    (h : acc.1.getObj k = none) : ((js.foldl (sweepJobBlob env) acc).1).getObj k = none := by
  induction js generalizing acc with
  | nil => exact h
  | cons a t ih =>
      exact ih _ (sweepJobBlob_absent env acc a k h)

/-- If some swept job owns result key `k` and the store accepts the delete,
the blob under `k` is gone after the sweep of the whole list. -/
theorem foldl_sweep_deletes (env : Env) (j : Job) (k : String)
    (hrk : j.resultKey = some k) (hok : env.deleteOk k = true) :
    ∀ (js : List Job) (acc : S3State × Nat), j ∈ js →
      ((js.foldl (sweepJobBlob env) acc).1).getObj k = none := by
  intro js
  induction js with
  | nil =>
      intro acc hj
      cases hj
  | cons a t ih =>
      intro acc hj
      rw [List.foldl_cons]
      rcases List.mem_cons.mp hj with he | ht
      · subst he
        apply foldl_sweep_absent
        unfold sweepJobBlob
        rw [hrk]
        unfold deleteFile
        simp only [hok, if_pos]
        exact getObj_removeObj_self _ _
      · exact ih _ ht

/-- C8: a retention sweep deletes the record of every job whose
`completed_at` lies more than 24 hours in the past and (when the store
accepts the delete) its result blob, while a job completed one hour before
the sweep keeps its record. -/
theorem c8_retention_sweep (env : Env) (w : World) (jOld jNew : Job)
    (tOld tNew : Nat)
    (hinOld : jOld ∈ w.db.jobs) (hcOld : jOld.completedAt = some tOld)
    (hage : tOld + 24 < env.now)
    (hinNew : jNew ∈ w.db.jobs) (hcNew : jNew.completedAt = some tNew)
    (hfresh : env.now = tNew + 1) :
    jOld ∉ (cleanupOldJobs env w).1.db.jobs ∧
    (∀ k, jOld.resultKey = some k → env.deleteOk k = true →
      (cleanupOldJobs env w).1.s3.getObj k = none) ∧
    jNew ∈ (cleanupOldJobs env w).1.db.jobs := by
  have hOldSel : jobIsOld env.now jOld = true := by
    simp only [jobIsOld, hcOld]
    rw [decide_eq_true_iff]
    omega
  have hNewSel : jobIsOld env.now jNew = false := by
    simp only [jobIsOld, hcNew]
    rw [decide_eq_false_iff_not]
    omega
  refine ⟨?_, ?_, ?_⟩
  · unfold cleanupOldJobs
    simp only [List.mem_filter]
    intro hcontra
    rw [hOldSel] at hcontra
    simpa using hcontra.2
  · intro k hrk hok
    unfold cleanupOldJobs
    apply foldl_sweep_deletes env jOld k hrk hok
    rw [List.mem_filter]
    exact ⟨hinOld, hOldSel⟩
  · unfold cleanupOldJobs
    simp only [List.mem_filter]
    refine ⟨hinNew, ?_⟩
    simp [hNewSel]

/-- C8 witness: in a concrete store with one job completed at hour 24 and one
at hour 48, a sweep at hour 49 removes the first job and its result blob and
keeps the second job. -/
theorem c8_retention_sweep_witness :
    (⟨"A", "S", "merge", .completed, ["x"], some "results/A/merged.pdf", none, none, 0,
        some 24⟩ : Job) ∉
      (cleanupOldJobs ⟨fun _ => true, fun _ => true, 49⟩
        ⟨⟨[⟨"A", "S", "merge", .completed, ["x"], some "results/A/merged.pdf", none, none, 0,
            some 24⟩,
          ⟨"B", "S", "merge", .completed, ["y"], some "results/B/merged.pdf", none, none, 0,
            some 48⟩]⟩,
          ⟨[("results/A/merged.pdf", .pdf [1]), ("results/B/merged.pdf", .pdf [2])]⟩⟩).1.db.jobs ∧
    (∀ k, (⟨"A", "S", "merge", .completed, ["x"], some "results/A/merged.pdf", none, none, 0,
        some 24⟩ : Job).resultKey = some k → (fun _ => true : String → Bool) k = true →
      (cleanupOldJobs ⟨fun _ => true, fun _ => true, 49⟩
        ⟨⟨[⟨"A", "S", "merge", .completed, ["x"], some "results/A/merged.pdf", none, none, 0,
            some 24⟩,
          ⟨"B", "S", "merge", .completed, ["y"], some "results/B/merged.pdf", none, none, 0,
            some 48⟩]⟩,
          ⟨[("results/A/merged.pdf", .pdf [1]), ("results/B/merged.pdf", .pdf [2])]⟩⟩).1.s3.getObj
        k = none) ∧
    (⟨"B", "S", "merge", .completed, ["y"], some "results/B/merged.pdf", none, none, 0,
        some 48⟩ : Job) ∈
      (cleanupOldJobs ⟨fun _ => true, fun _ => true, 49⟩
        ⟨⟨[⟨"A", "S", "merge", .completed, ["x"], some "results/A/merged.pdf", none, none, 0,
            some 24⟩,
          ⟨"B", "S", "merge", .completed, ["y"], some "results/B/merged.pdf", none, none, 0,
            some 48⟩]⟩,
          ⟨[("results/A/merged.pdf", .pdf [1]), ("results/B/merged.pdf", .pdf [2])]⟩⟩).1.db.jobs :=
  c8_retention_sweep ⟨fun _ => true, fun _ => true, 49⟩ _ _ _ 24 48
    (by simp) rfl (by decide) (by simp) rfl rfl

/-- C1 amended: a reduce submission whose input refs all exist but number
other than one fails with the 400 cardinality error and enqueues no task —
but the job record store is changed by the failed call: the new PENDING row
was committed before the cardinality check and remains in the table. -/
theorem c1_amended (env : Env) (s3 : S3State) (db : JobStore) (req : StartJobRequest)
    (jid sess : String)
    (hex : ∀ k ∈ req.fileKeys, s3.fileExists k = true)
    (htool : req.toolType = "reduce")
    (hcard : req.fileKeys.length ≠ 1) :
    (startJob env s3 db req jid sess).2.2 =
      .httpError 400 "Reduce tool requires exactly one file" ∧
    (startJob env s3 db req jid sess).2.1 = [] ∧
    (startJob env s3 db req jid sess).1 = addJob db
      { id := jid, sessionId := sess, toolType := req.toolType,
        status := JobStatus.pending, inputFiles := req.fileKeys, resultKey := none,
        compressionLevel := some req.compressionLevel, errorMessage := none,
        createdAt := env.now, completedAt := none } := by
  have hfind : req.fileKeys.find? (fun k => ¬ s3.fileExists k) = none := by
    rw [List.find?_eq_none]
    intro k hk
    simp [hex k hk]
  unfold startJob
  rw [hfind]
  simp +decide [htool, hcard]

/-- C1 amended witness: the two-ref reduce submission on a store holding both
blobs gets the 400 error, no task call, and exactly the new pending row. -/
theorem c1_amended_witness :
    (startJob ⟨fun _ => true, fun _ => true, 100⟩
        ⟨[("a", .pdf [1]), ("b", .pdf [2])]⟩ ⟨[]⟩
        ⟨"reduce", ["a", "b"], "medium"⟩ "J" "S").2.2 =
      .httpError 400 "Reduce tool requires exactly one file" ∧
    (startJob ⟨fun _ => true, fun _ => true, 100⟩
        ⟨[("a", .pdf [1]), ("b", .pdf [2])]⟩ ⟨[]⟩
        ⟨"reduce", ["a", "b"], "medium"⟩ "J" "S").2.1 = [] ∧
    (startJob ⟨fun _ => true, fun _ => true, 100⟩
        ⟨[("a", .pdf [1]), ("b", .pdf [2])]⟩ ⟨[]⟩
        ⟨"reduce", ["a", "b"], "medium"⟩ "J" "S").1 = addJob ⟨[]⟩
      { id := "J", sessionId := "S", toolType := "reduce",
        status := JobStatus.pending, inputFiles := ["a", "b"], resultKey := none,
        compressionLevel := some "medium", errorMessage := none,
        createdAt := 100, completedAt := none } :=
  c1_amended ⟨fun _ => true, fun _ => true, 100⟩
    ⟨[("a", .pdf [1]), ("b", .pdf [2])]⟩ ⟨[]⟩ ⟨"reduce", ["a", "b"], "medium"⟩
    "J" "S" (by decide) rfl (by decide)

/-- Download loop behavior when the first referenced blob is missing: the
very first fetch returns None and the loop raises. -/
theorem downloadAll_head_missing (s3 : S3State) (k0 : String) (rest : List String)
    (hmiss : s3.getObj k0 = none) :
    downloadAll s3 (k0 :: rest) = .error ("Failed to download file " ++ k0) := by
  unfold downloadAll
  rw [hmiss]

/-- C3 amended: re-invoking any of the four tool entry points on a job that
already completed leaves `result_key` untouched but does move the status away
from completed — every entry point unconditionally overwrites status to
PROCESSING, and since the completion path deleted the input blobs, the
re-delivered invocation fails its download and terminally rewrites the row as
FAILED (with the stale result key still in place and a fresh completion
time). -/
theorem c3_amended (env : Env) (w : World) (jid k0 level : String) (rest : List String)
    (j : Job)
    (hj : findJob w.db jid = some j)
    (_hst : j.status = JobStatus.completed)
    (hmiss : w.s3.getObj k0 = none) :
    findJob (mergePdfTask env jid (k0 :: rest) w).1.db jid =
      some { j with status := JobStatus.failed,
                    errorMessage := some ("Failed to download file " ++ k0),
                    completedAt := some env.now } ∧
    findJob (compressImageTask env jid (k0 :: rest) level w).1.db jid =
      some { j with status := JobStatus.failed,
                    compressionLevel := some level,
                    errorMessage := some ("Failed to download file " ++ k0),
                    completedAt := some env.now } ∧
    findJob (reducePdfTask env jid k0 level w).1.db jid =
      some { j with status := JobStatus.failed,
                    compressionLevel := some level,
                    errorMessage := some ("Failed to download file " ++ k0),
                    completedAt := some env.now } ∧
    findJob (jpgToPdfTask env jid (k0 :: rest) w).1.db jid =
      some { j with status := JobStatus.failed,
                    errorMessage := some ("Failed to download file " ++ k0),
                    completedAt := some env.now } := by
  have hid : j.id = jid := by
    simpa using List.find?_some hj
  have hdl := downloadAll_head_missing w.s3 k0 rest hmiss
  have hdl1 : downloadAll w.s3 [k0] = .error ("Failed to download file " ++ k0) := by
    unfold downloadAll
    rw [hmiss]
  refine ⟨?_, ?_, ?_, ?_⟩
  · unfold mergePdfTask mergeTaskBody markProcessing
    rw [hj]
    simp only [hdl, failJob]
    have hmid := findJob_putJob w.db jid
      { j with status := JobStatus.processing } j hj hid
    exact findJob_putJob _ jid _ _ hmid hid
  · unfold compressImageTask compressTaskBody markProcessing
    rw [hj]
    simp only [hdl, failJob]
    have hmid := findJob_putJob w.db jid
      { j with status := JobStatus.processing, compressionLevel := some level } j hj hid
    exact findJob_putJob _ jid _ _ hmid hid
  · unfold reducePdfTask reduceTaskBody markProcessing
    rw [hj]
    simp only [hdl1, failJob]
    have hmid := findJob_putJob w.db jid
      { j with status := JobStatus.processing, compressionLevel := some level } j hj hid
    exact findJob_putJob _ jid _ _ hmid hid
  · unfold jpgToPdfTask jpgToPdfTaskBody markProcessing
    rw [hj]
    simp only [hdl, failJob]
    have hmid := findJob_putJob w.db jid
      { j with status := JobStatus.processing } j hj hid
    exact findJob_putJob _ jid _ _ hmid hid

/-- C3 amended witness: a job that completed at hour 50 with its result under
`results/J/merged.pdf` and its input blob already deleted is, after a
re-delivered invocation of each of the four entry points at hour 100, FAILED
with the stale result key still in place. -/
theorem c3_amended_witness :
    findJob (mergePdfTask ⟨fun _ => true, fun _ => true, 100⟩ "J" ["p"]
        ⟨⟨[⟨"J", "S", "merge", .completed, ["p"], some "results/J/merged.pdf",
          some "medium", none, 0, some 50⟩]⟩, ⟨[]⟩⟩).1.db "J" =
      some ⟨"J", "S", "merge", .failed, ["p"], some "results/J/merged.pdf",
        some "medium", some "Failed to download file p", 0, some 100⟩ ∧
    findJob (compressImageTask ⟨fun _ => true, fun _ => true, 100⟩ "J" ["p"] "medium"
        ⟨⟨[⟨"J", "S", "merge", .completed, ["p"], some "results/J/merged.pdf",
          some "medium", none, 0, some 50⟩]⟩, ⟨[]⟩⟩).1.db "J" =
      some ⟨"J", "S", "merge", .failed, ["p"], some "results/J/merged.pdf",
        some "medium", some "Failed to download file p", 0, some 100⟩ ∧
    findJob (reducePdfTask ⟨fun _ => true, fun _ => true, 100⟩ "J" "p" "medium"
        ⟨⟨[⟨"J", "S", "merge", .completed, ["p"], some "results/J/merged.pdf",
          some "medium", none, 0, some 50⟩]⟩, ⟨[]⟩⟩).1.db "J" =
      some ⟨"J", "S", "merge", .failed, ["p"], some "results/J/merged.pdf",
        some "medium", some "Failed to download file p", 0, some 100⟩ ∧
    findJob (jpgToPdfTask ⟨fun _ => true, fun _ => true, 100⟩ "J" ["p"]
        ⟨⟨[⟨"J", "S", "merge", .completed, ["p"], some "results/J/merged.pdf",
          some "medium", none, 0, some 50⟩]⟩, ⟨[]⟩⟩).1.db "J" =
      some ⟨"J", "S", "merge", .failed, ["p"], some "results/J/merged.pdf",
        some "medium", some "Failed to download file p", 0, some 100⟩ :=
  c3_amended ⟨fun _ => true, fun _ => true, 100⟩
    ⟨⟨[⟨"J", "S", "merge", .completed, ["p"], some "results/J/merged.pdf",
      some "medium", none, 0, some 50⟩]⟩, ⟨[]⟩⟩
    "J" "p" "medium" []
    ⟨"J", "S", "merge", .completed, ["p"], some "results/J/merged.pdf",
      some "medium", none, 0, some 50⟩
    rfl rfl rfl

/-- After any jpg-to-pdf invocation on an existing job row, that row is either
rewritten as COMPLETED (result key set to the deterministic converted.pdf key,
error cleared, completion time stamped) or rewritten as FAILED (error message
set, completion time stamped, result key left at its previous value). -/
theorem jpgTask_final_job (env : Env) (jid : String) (keys : List String) (w : World)
    (j : Job) (hj : findJob w.db jid = some j) :
    (findJob (jpgToPdfTask env jid keys w).1.db jid =
      some { j with status := JobStatus.completed,
                    resultKey := some ("results/" ++ jid ++ "/converted.pdf"),
                    completedAt := some env.now, errorMessage := none }) ∨
    (∃ msg, findJob (jpgToPdfTask env jid keys w).1.db jid =
      some { j with status := JobStatus.failed, errorMessage := some msg,
                    completedAt := some env.now }) := by
  have hid : j.id = jid := by
    simpa using List.find?_some hj
  have hmid := findJob_putJob w.db jid { j with status := JobStatus.processing } j hj hid
  unfold jpgToPdfTask jpgToPdfTaskBody markProcessing
  rw [hj]
  dsimp only
  rcases hdl : downloadAll w.s3 keys with e | files
  · dsimp only [failJob]
    right
    exact ⟨e, findJob_putJob _ jid _ _ hmid hid⟩
  · dsimp only
    rcases hdi : decodeImages files with e | images
    · dsimp only [failJob]
      right
      exact ⟨e, findJob_putJob _ jid _ _ hmid hid⟩
    · dsimp only
      rcases images with _ | ⟨px, pxs⟩
      · dsimp only [List.head?, failJob]
        right
        exact ⟨"No valid images found for conversion", findJob_putJob _ jid _ _ hmid hid⟩
      · dsimp only [List.head?]
        by_cases hup : env.uploadOk ("results/" ++ jid ++ "/converted.pdf") = true
        · rw [show uploadFile env w.s3 (pilSaveFirstImageAsPdf (px :: pxs) px)
              ("results/" ++ jid ++ "/converted.pdf") =
              (true, w.s3.setObj ("results/" ++ jid ++ "/converted.pdf")
                (pilSaveFirstImageAsPdf (px :: pxs) px)) from by
            unfold uploadFile
            rw [if_pos hup]]
          rw [if_pos rfl]
          dsimp only
          left
          exact findJob_putJob _ jid _ _ hmid hid
        · rw [show uploadFile env w.s3 (pilSaveFirstImageAsPdf (px :: pxs) px)
              ("results/" ++ jid ++ "/converted.pdf") = (false, w.s3) from by
            unfold uploadFile
            rw [if_neg hup]]
          rw [if_neg (by simp : ¬ ((false, w.s3).1 = true))]
          dsimp only [failJob]
          right
          exact ⟨"Failed to upload converted PDF", findJob_putJob _ jid _ _ hmid hid⟩

/-- After any merge invocation on an existing job row, that row is either
rewritten as COMPLETED (result key set to the deterministic merged.pdf key,
error cleared) or rewritten as FAILED (error message set, result key left at
its previous value); the COMPLETED branch is in fact unreachable because the
merge executor always raises. -/
theorem mergeTask_final_job (env : Env) (jid : String) (keys : List String) (w : World)
    (j : Job) (hj : findJob w.db jid = some j) :
    (findJob (mergePdfTask env jid keys w).1.db jid =
      some { j with status := JobStatus.completed,
                    resultKey := some ("results/" ++ jid ++ "/merged.pdf"),
                    completedAt := some env.now, errorMessage := none }) ∨
    (∃ msg, findJob (mergePdfTask env jid keys w).1.db jid =
      some { j with status := JobStatus.failed, errorMessage := some msg,
                    completedAt := some env.now }) := by
  have hid : j.id = jid := by
    simpa using List.find?_some hj
  have hmid := findJob_putJob w.db jid { j with status := JobStatus.processing } j hj hid
  unfold mergePdfTask mergeTaskBody markProcessing
  rw [hj]
  dsimp only
  rcases hdl : downloadAll w.s3 keys with e | files
  · dsimp only [failJob]
    right
    exact ⟨e, findJob_putJob _ jid _ _ hmid hid⟩
  · dsimp only
    rcases hm : mergePdfs files with e | merged
    · dsimp only [failJob]
      right
      exact ⟨e, findJob_putJob _ jid _ _ hmid hid⟩
    · exact absurd hm (mergePdfs_no_success files merged)

/-- After any compress invocation on an existing job row, that row is either
rewritten as COMPLETED (result key set to the deterministic compressed_0.jpg
key, error cleared) or rewritten as FAILED (error message set, result key
left at its previous value); in both branches the compression level is
recorded. -/
theorem compressTask_final_job (env : Env) (jid level : String) (keys : List String)
    (w : World) (j : Job) (hj : findJob w.db jid = some j) :
    (findJob (compressImageTask env jid keys level w).1.db jid =
      some { j with status := JobStatus.completed, compressionLevel := some level,
                    resultKey := some ("results/" ++ jid ++ "/compressed_0.jpg"),
                    completedAt := some env.now, errorMessage := none }) ∨
    (∃ msg, findJob (compressImageTask env jid keys level w).1.db jid =
      some { j with status := JobStatus.failed, compressionLevel := some level,
                    errorMessage := some msg, completedAt := some env.now }) := by
  have hid : j.id = jid := by
    simpa using List.find?_some hj
  have hmid := findJob_putJob w.db jid
    { j with status := JobStatus.processing, compressionLevel := some level } j hj hid
  unfold compressImageTask compressTaskBody markProcessing
  rw [hj]
  dsimp only
  rcases hdl : downloadAll w.s3 keys with e | files
  · dsimp only [failJob]
    right
    exact ⟨e, findJob_putJob _ jid _ _ hmid hid⟩
  · dsimp only
    rcases hcl : compressUploadLoop env jid level w.s3 0 files with e | s3a
    · dsimp only [failJob]
      right
      exact ⟨e, findJob_putJob _ jid _ _ hmid hid⟩
    · dsimp only
      left
      exact findJob_putJob _ jid _ _ hmid hid

/-- After any reduce invocation on an existing job row, that row is either
rewritten as COMPLETED (result key set to the deterministic reduced.pdf key,
error cleared) or rewritten as FAILED (error message set, result key left at
its previous value); in both branches the compression level is recorded. -/
theorem reduceTask_final_job (env : Env) (jid fileKey level : String) (w : World)
    (j : Job) (hj : findJob w.db jid = some j) :
    (findJob (reducePdfTask env jid fileKey level w).1.db jid =
      some { j with status := JobStatus.completed, compressionLevel := some level,
                    resultKey := some ("results/" ++ jid ++ "/reduced.pdf"),
                    completedAt := some env.now, errorMessage := none }) ∨
    (∃ msg, findJob (reducePdfTask env jid fileKey level w).1.db jid =
      some { j with status := JobStatus.failed, compressionLevel := some level,
                    errorMessage := some msg, completedAt := some env.now }) := by
  have hid : j.id = jid := by
    simpa using List.find?_some hj
  have hmid := findJob_putJob w.db jid
    { j with status := JobStatus.processing, compressionLevel := some level } j hj hid
  unfold reducePdfTask reduceTaskBody markProcessing
  rw [hj]
  dsimp only
  rcases hdl : downloadAll w.s3 [fileKey] with e | files
  · dsimp only [failJob]
    right
    exact ⟨e, findJob_putJob _ jid _ _ hmid hid⟩
  · dsimp only
    rcases files with _ | ⟨d, ds⟩
    · dsimp only [List.head?, failJob]
      right
      exact ⟨"Failed to download file " ++ fileKey, findJob_putJob _ jid _ _ hmid hid⟩
    · dsimp only [List.head?]
      rcases hr : reducePdf d level with e | reduced
      · dsimp only [failJob]
        right
        exact ⟨e, findJob_putJob _ jid _ _ hmid hid⟩
      · dsimp only
        by_cases hup : env.uploadOk ("results/" ++ jid ++ "/reduced.pdf") = true
        · rw [show uploadFile env w.s3 reduced ("results/" ++ jid ++ "/reduced.pdf") =
              (true, w.s3.setObj ("results/" ++ jid ++ "/reduced.pdf") reduced) from by
            unfold uploadFile
            rw [if_pos hup]]
          rw [if_pos rfl]
          dsimp only
          left
          exact findJob_putJob _ jid _ _ hmid hid
        · rw [show uploadFile env w.s3 reduced ("results/" ++ jid ++ "/reduced.pdf") =
              (false, w.s3) from by
            unfold uploadFile
            rw [if_neg hup]]
          rw [if_neg (by simp : ¬ ((false, w.s3).1 = true))]
          dsimp only [failJob]
          right
          exact ⟨"Failed to upload reduced file", findJob_putJob _ jid _ _ hmid hid⟩

/-- C2 amended: for a single delivery of any of the four tool entry points on
a job whose `result_ref` is not yet set, terminal consistency holds — a
COMPLETED row has a result key and no error, and a FAILED row has an error
and no result key.  The invariant as originally claimed is refuted only by
re-delivery after completion, because the failure path never clears
`result_key`. -/
theorem c2_amended (env : Env) (jid fileKey level : String) (keys : List String)
    (w : World) (j : Job)
    (hj : findJob w.db jid = some j) (hrk : j.resultKey = none) :
    (∃ jf, findJob (mergePdfTask env jid keys w).1.db jid = some jf ∧
      (jf.status = JobStatus.completed → jf.resultKey.isSome = true ∧ jf.errorMessage = none) ∧
      (jf.status = JobStatus.failed → jf.errorMessage.isSome = true ∧ jf.resultKey = none)) ∧
    (∃ jf, findJob (compressImageTask env jid keys level w).1.db jid = some jf ∧
      (jf.status = JobStatus.completed → jf.resultKey.isSome = true ∧ jf.errorMessage = none) ∧
      (jf.status = JobStatus.failed → jf.errorMessage.isSome = true ∧ jf.resultKey = none)) ∧
    (∃ jf, findJob (reducePdfTask env jid fileKey level w).1.db jid = some jf ∧
      (jf.status = JobStatus.completed → jf.resultKey.isSome = true ∧ jf.errorMessage = none) ∧
      (jf.status = JobStatus.failed → jf.errorMessage.isSome = true ∧ jf.resultKey = none)) ∧
    (∃ jf, findJob (jpgToPdfTask env jid keys w).1.db jid = some jf ∧
      (jf.status = JobStatus.completed → jf.resultKey.isSome = true ∧ jf.errorMessage = none) ∧
      (jf.status = JobStatus.failed → jf.errorMessage.isSome = true ∧ jf.resultKey = none)) := by
  refine ⟨?_, ?_, ?_, ?_⟩
  · rcases mergeTask_final_job env jid keys w j hj with hfin | ⟨msg, hfin⟩
    · refine ⟨_, hfin, fun _ => ⟨rfl, rfl⟩, fun hc => ?_⟩
      simp at hc
    · refine ⟨_, hfin, fun hc => ?_, fun _ => ⟨rfl, hrk⟩⟩
      simp at hc
  · rcases compressTask_final_job env jid level keys w j hj with hfin | ⟨msg, hfin⟩
    · refine ⟨_, hfin, fun _ => ⟨rfl, rfl⟩, fun hc => ?_⟩
      simp at hc
    · refine ⟨_, hfin, fun hc => ?_, fun _ => ⟨rfl, hrk⟩⟩
      simp at hc
  · rcases reduceTask_final_job env jid fileKey level w j hj with hfin | ⟨msg, hfin⟩
    · refine ⟨_, hfin, fun _ => ⟨rfl, rfl⟩, fun hc => ?_⟩
      simp at hc
    · refine ⟨_, hfin, fun hc => ?_, fun _ => ⟨rfl, hrk⟩⟩
      simp at hc
  · rcases jpgTask_final_job env jid keys w j hj with hfin | ⟨msg, hfin⟩
    · refine ⟨_, hfin, fun _ => ⟨rfl, rfl⟩, fun hc => ?_⟩
      simp at hc
    · refine ⟨_, hfin, fun hc => ?_, fun _ => ⟨rfl, hrk⟩⟩
      simp at hc

/-- C2 amended witness: a fresh pending job with no result key and its input
blob present ends, after one delivery of each of the four entry points, in a
row satisfying terminal consistency. -/
theorem c2_amended_witness :
    (∃ jf, findJob (mergePdfTask ⟨fun _ => true, fun _ => true, 100⟩ "J" ["k"]
        ⟨⟨[⟨"J", "S", "compress", .pending, ["k"], none, some "medium", none, 0, none⟩]⟩,
          ⟨[("k", .image 7)]⟩⟩).1.db "J" = some jf ∧
      (jf.status = JobStatus.completed → jf.resultKey.isSome = true ∧ jf.errorMessage = none) ∧
      (jf.status = JobStatus.failed → jf.errorMessage.isSome = true ∧ jf.resultKey = none)) ∧
    (∃ jf, findJob (compressImageTask ⟨fun _ => true, fun _ => true, 100⟩ "J" ["k"] "medium"
        ⟨⟨[⟨"J", "S", "compress", .pending, ["k"], none, some "medium", none, 0, none⟩]⟩,
          ⟨[("k", .image 7)]⟩⟩).1.db "J" = some jf ∧
      (jf.status = JobStatus.completed → jf.resultKey.isSome = true ∧ jf.errorMessage = none) ∧
      (jf.status = JobStatus.failed → jf.errorMessage.isSome = true ∧ jf.resultKey = none)) ∧
    (∃ jf, findJob (reducePdfTask ⟨fun _ => true, fun _ => true, 100⟩ "J" "k" "medium"
        ⟨⟨[⟨"J", "S", "compress", .pending, ["k"], none, some "medium", none, 0, none⟩]⟩,
          ⟨[("k", .image 7)]⟩⟩).1.db "J" = some jf ∧
      (jf.status = JobStatus.completed → jf.resultKey.isSome = true ∧ jf.errorMessage = none) ∧
      (jf.status = JobStatus.failed → jf.errorMessage.isSome = true ∧ jf.resultKey = none)) ∧
    (∃ jf, findJob (jpgToPdfTask ⟨fun _ => true, fun _ => true, 100⟩ "J" ["k"]
        ⟨⟨[⟨"J", "S", "compress", .pending, ["k"], none, some "medium", none, 0, none⟩]⟩,
          ⟨[("k", .image 7)]⟩⟩).1.db "J" = some jf ∧
      (jf.status = JobStatus.completed → jf.resultKey.isSome = true ∧ jf.errorMessage = none) ∧
      (jf.status = JobStatus.failed → jf.errorMessage.isSome = true ∧ jf.resultKey = none)) :=
  c2_amended ⟨fun _ => true, fun _ => true, 100⟩ "J" "k" "medium" ["k"]
    ⟨⟨[⟨"J", "S", "compress", .pending, ["k"], none, some "medium", none, 0, none⟩]⟩,
      ⟨[("k", .image 7)]⟩⟩
    ⟨"J", "S", "compress", .pending, ["k"], none, some "medium", none, 0, none⟩
    rfl rfl

/-- C4 amended: a jpg-to-pdf job whose inputs are all decodable images and
whose result upload is accepted completes successfully, but the document
stored under `results/JOBID/converted.pdf` is a single-page document rendering
only the first input image — the remaining images are decoded and then
dropped by the save call. -/
theorem c4_amended (env : Env) (w : World) (jid k0 : String) (rest : List String)
    (pix : String → Nat) (j : Job)
    (hj : findJob w.db jid = some j)
    (himg : ∀ k ∈ k0 :: rest, w.s3.getObj k = some (.image (pix k)))
    (hup : env.uploadOk ("results/" ++ jid ++ "/converted.pdf") = true)
    (hnotin : ("results/" ++ jid ++ "/converted.pdf") ∉ k0 :: rest) :
    (jpgToPdfTask env jid (k0 :: rest) w).2.status = "success" ∧
    (jpgToPdfTask env jid (k0 :: rest) w).1.s3.getObj
      ("results/" ++ jid ++ "/converted.pdf") = some (FileData.pdf [pix k0]) := by
  have hdl : downloadAll w.s3 (k0 :: rest) =
      .ok ((k0 :: rest).map (fun k => FileData.image (pix k))) :=
    downloadAll_ok w.s3 (k0 :: rest) (fun k => FileData.image (pix k)) himg
  have hdi : decodeImages ((k0 :: rest).map (fun k => FileData.image (pix k))) =
      .ok ((k0 :: rest).map pix) := by
    have hmm : (k0 :: rest).map (fun k => FileData.image (pix k)) =
        ((k0 :: rest).map pix).map FileData.image := by
      rw [List.map_map]
      rfl
    rw [hmm]
    exact decodeImages_images _
  unfold jpgToPdfTask jpgToPdfTaskBody markProcessing
  rw [hj]
  dsimp only
  rw [hdl]
  dsimp only
  rw [hdi]
  dsimp only [List.map_cons, List.head?, pilSaveFirstImageAsPdf]
  rw [show uploadFile env w.s3 (FileData.pdf [pix k0])
      ("results/" ++ jid ++ "/converted.pdf") =
      (true, w.s3.setObj ("results/" ++ jid ++ "/converted.pdf") (FileData.pdf [pix k0])) from by
    unfold uploadFile
    rw [if_pos hup]]
  rw [if_pos rfl]
  dsimp only
  refine ⟨rfl, ?_⟩
  rw [getObj_deleteFiles_not_mem env _ _ _ hnotin]
  exact getObj_setObj_self _ _ _

/-- C4 amended witness: the concrete two-image job completes with a stored
one-page document rendering the first image. -/
theorem c4_amended_witness :
    (jpgToPdfTask ⟨fun _ => true, fun _ => true, 100⟩ "J" ["i0", "i1"]
        ⟨⟨[⟨"J", "S", "jpg-to-pdf", .pending, ["i0", "i1"], none, some "medium", none, 0, none⟩]⟩,
          ⟨[("i0", .image 3), ("i1", .image 4)]⟩⟩).2.status = "success" ∧
    (jpgToPdfTask ⟨fun _ => true, fun _ => true, 100⟩ "J" ["i0", "i1"]
        ⟨⟨[⟨"J", "S", "jpg-to-pdf", .pending, ["i0", "i1"], none, some "medium", none, 0, none⟩]⟩,
          ⟨[("i0", .image 3), ("i1", .image 4)]⟩⟩).1.s3.getObj "results/J/converted.pdf" =
      some (FileData.pdf [(fun k => if k = "i0" then 3 else 4) "i0"]) :=
  c4_amended ⟨fun _ => true, fun _ => true, 100⟩
    ⟨⟨[⟨"J", "S", "jpg-to-pdf", .pending, ["i0", "i1"], none, some "medium", none, 0, none⟩]⟩,
      ⟨[("i0", .image 3), ("i1", .image 4)]⟩⟩
    "J" "i0" ["i1"] (fun k => if k = "i0" then 3 else 4)
    ⟨"J", "S", "jpg-to-pdf", .pending, ["i0", "i1"], none, some "medium", none, 0, none⟩
    rfl (by decide) rfl (by decide)

end FreeConvert
